import Mathlib

/-!
Shallow embedding of `src/ingestion/mock_data.py` (RetailMockDataGenerator).

The Python module draws from the process-global `random` module and the
globally seeded `Faker` class.  We model that global state as an explicit
`GState` value threaded through every operation; a generator instance owns
only its two caches (`_customer_cache`, `_product_cache`), modelled by
`Instance`.  The Mersenne-Twister / Faker streams are modelled by simple
deterministic integer streams: every claim under study depends only on the
streams being deterministic functions of the seeded global state, on the
membership structure of `choice`-style draws, and on exact `Decimal`
arithmetic, never on the concrete distribution of the stream.
Monetary `Decimal` values are embedded as exact rationals, with
`quantize(Decimal("0.01"))` (round half to even) as `qround2`.
-/

/-- Global state of the `random` module and the `Faker` class: both are
process-wide in the source (`random.seed(seed)`, `Faker.seed(seed)`). -/
structure GState where
  rand : Nat
  faker : Nat
deriving DecidableEq, Repr

/-- Linear-congruential step modelling one draw from the global
Mersenne-Twister stream. -/
def rngNext (s : Nat) : Nat := (s * 1103515245 + 12345) % 2147483648

/-- Step of the modelled Faker stream. -/
def fakerNext (s : Nat) : Nat := (s * 25214903917 + 11) % 281474976710656

/-- Model of `random.seed(s)` together with `Faker.seed(s)`: the whole
global state is reset to a function of the seed alone. -/
def seedState (s : Int) : GState :=
  ⟨2 * s.natAbs + (if s < 0 then 1 else 0), 3 * s.natAbs + (if s < 0 then 1 else 0)⟩

/-- Draw a natural number below `n` from the global stream
(uniform index draw, used to model `random.choice`). -/
def randIdx (g : GState) (n : Nat) : Nat × GState :=
  let v := rngNext g.rand
  (v % n, ⟨v, g.faker⟩)

/-- Model of `random.choice(l)` for a nonempty literal or pool list. -/
def pyChoice [Inhabited α] (g : GState) (l : List α) : α × GState :=
  let v := rngNext g.rand
  (l.getD (v % l.length) default, ⟨v, g.faker⟩)

/-- Model of `random.randint(a, b)` (inclusive bounds). -/
def pyRandint (g : GState) (a b : Nat) : Nat × GState :=
  let v := rngNext g.rand
  (a + v % (b - a + 1), ⟨v, g.faker⟩)

/-- Model of `random.random()`: a rational in `[0, 1)`. -/
def pyRandom (g : GState) : ℚ × GState :=
  let v := rngNext g.rand
  ((v % 1000 : ℕ) / 1000, ⟨v, g.faker⟩)

/-- Model of `random.uniform(a, b)`: `a + (b - a) * t` with `t ∈ [0, 1]`. -/
def pyUniform (g : GState) (a b : ℚ) : ℚ × GState :=
  let v := rngNext g.rand
  (a + (b - a) * ((v % 1001 : ℕ) / 1000), ⟨v, g.faker⟩)

/-- Model of `random.gauss(mu, sigma)`: a deterministic draw centred at
`mu` and scaled by `sigma` (value in `[mu - 2*sigma, mu + 2*sigma]`). -/
def pyGauss (g : GState) (mu sigma : ℚ) : ℚ × GState :=
  let v := rngNext g.rand
  (mu + sigma * (((v % 2001 : ℕ) : ℚ) - 1000) / 1000, ⟨v, g.faker⟩)

/-- Cumulative walk used by the model of `random.choices(pop, weights)[0]`. -/
def pickWeighted : List (String × ℚ) → ℚ → String
  | [], _ => ""
  | [(a, _)], _ => a
  | (a, w) :: p :: rest, r => if r < w then a else pickWeighted (p :: rest) (r - w)

/-- Model of `random.choices(population, weights=w)[0]`. -/
def weightedChoice (g : GState) (l : List (String × ℚ)) : String × GState :=
  let v := rngNext g.rand
  let total := (l.map (fun p => p.2)).sum
  (pickWeighted l (((v % 1000 : ℕ) : ℚ) / 1000 * total), ⟨v, g.faker⟩)

/-- One draw from the modelled Faker stream, as a number (dates, times and
datetimes are represented by such numbers). -/
def fakeNat (g : GState) : Nat × GState :=
  let f := fakerNext g.faker
  (f % 100000, ⟨g.rand, f⟩)

/-- Decimal digit character (used to model Python `str` of an integer). -/
def digitChar : Nat → Char
  | 0 => '0' | 1 => '1' | 2 => '2' | 3 => '3' | 4 => '4'
  | 5 => '5' | 6 => '6' | 7 => '7' | 8 => '8' | _ => '9'

/-- Numeric value of a digit character. -/
def digitVal (c : Char) : Nat := c.toNat - 48

/-- Fuel-driven decimal rendering of a natural number (big-endian digits). -/
def decReprAux : Nat → Nat → List Char
  | 0, _ => []
  | fuel + 1, n =>
    if n < 10 then [digitChar n] else decReprAux fuel (n / 10) ++ [digitChar (n % 10)]

/-- Decimal rendering of `n`, modelling Python `str(n)` for `n ≥ 0`. -/
def decRepr (n : Nat) : List Char := decReprAux (n + 1) n

/-- Model of `str.zfill` / `{:0wd}` formatting: left-pad with zeros. -/
def zfillChars (w : Nat) (cs : List Char) : List Char :=
  List.replicate (w - cs.length) '0' ++ cs

/-- Read a digit string back as a number (left inverse of the renderings). -/
def parseDigits (cs : List Char) : Nat :=
  cs.foldl (fun acc c => acc * 10 + digitVal c) 0

/-- String made of zero-padded decimal digits. -/
def natStrZ (w n : Nat) : String := String.mk (zfillChars w (decRepr n))

/-- Plain decimal string of a natural number. -/
def natStr (n : Nat) : String := String.mk (decRepr n)

/-- A Faker-style opaque string draw (names, addresses, words, ...). -/
def fakeStr (g : GState) (tag : String) : String × GState :=
  let (v, g') := fakeNat g
  (tag ++ natStr v, g')

/-- The `CUST-{(i+1):08d}` identifier of `generate_customers`. -/
def custId (n : Nat) : String :=
  String.mk (['C', 'U', 'S', 'T', '-'] ++ zfillChars 8 (decRepr n))

/-- The `SKU-{(i+1):06d}` identifier of `generate_products`. -/
def skuId (n : Nat) : String :=
  String.mk (['S', 'K', 'U', '-'] ++ zfillChars 6 (decRepr n))

/-- The `STORE-{(i+1):04d}` identifier of `generate_stores`. -/
def storeId (n : Nat) : String :=
  String.mk (['S', 'T', 'O', 'R', 'E', '-'] ++ zfillChars 4 (decRepr n))

/-- The `ORD-{(i+1):010d}` identifier of `generate_orders`. -/
def ordId (n : Nat) : String :=
  String.mk (['O', 'R', 'D', '-'] ++ zfillChars 10 (decRepr n))

/-- The `{order_id}-{(j+1):03d}` identifier of an order item. -/
def itemId (oid : String) (n : Nat) : String := oid ++ "-" ++ natStrZ 3 n

/-- Round half to even at integer precision, as Python `Decimal.quantize`
with the default rounding and as the exact-arithmetic reading of `round`. -/
def rhe (x : ℚ) : ℤ :=
  let f := Rat.floor x
  let r := x - f
  if r < 1 / 2 then f
  else if 1 / 2 < r then f + 1
  else if f % 2 = 0 then f else f + 1

/-- Quantization to two decimal places, `Decimal.quantize(Decimal("0.01"))`
and `round(x, 2)` in the source. -/
def qround2 (x : ℚ) : ℚ := (rhe (100 * x) : ℚ) / 100

/-- A rational is an exact two-decimal-place value. -/
def is2dp (x : ℚ) : Prop := ∃ n : ℤ, x = (n : ℚ) / 100

/-- Python `int()` truncation toward zero of a rational. -/
def ratTrunc (q : ℚ) : ℤ := if q < 0 then -(Rat.floor (-q)) else Rat.floor q

/-- Python `range(count)` for a possibly negative `count`: empty unless
`count > 0`. -/
def pyRange (count : Int) : List Nat := List.range count.toNat

/-- First-match lookup in an insertion-ordered dictionary
(Python `dict` access / `dict.get`). -/
def dictFind : List (String × α) → String → Option α
  | [], _ => none
  | (k, v) :: rest, key => if key = k then some v else dictFind rest key

/-- Python `dict` assignment `d[k] = v`: overwrite in place if the key is
present, else append, preserving insertion order. -/
def dictInsert : List (String × α) → String → α → List (String × α)
  | [], k, v => [(k, v)]
  | (k0, v0) :: rest, k, v =>
    if k0 = k then (k0, v) :: rest else (k0, v0) :: dictInsert rest k v

/-- Python `list(d.keys())`: keys in insertion order. -/
def dictKeys (d : List (String × α)) : List String := d.map (fun p => p.1)

/-- Configuration record `GeneratorConfig` from the source. -/
structure GeneratorConfig where
  num_customers : Int := 1000
  num_products : Int := 500
  num_stores : Int := 50
  num_orders : Int := 5000
  avg_items_per_order : Int := 3
  seed : Int := 42
deriving DecidableEq, Repr

/-- Customer record (the dictionary built by `generate_customers`). -/
structure Customer where
  customer_id : String
  first_name : String
  last_name : String
  email : String
  phone : String
  address_line1 : String
  city : String
  state : String
  postal_code : String
  country_code : String
  customer_segment : String
  registration_date : Nat
  is_active : Bool
  created_at : Nat
  updated_at : Nat
deriving DecidableEq, Repr

/-- Product record (the dictionary built by `generate_products`). -/
structure Product where
  product_id : String
  product_name : String
  category_id : String
  category_name : String
  subcategory_name : String
  brand : String
  unit_price : ℚ
  unit_cost : ℚ
  stock_quantity : Nat
  is_active : Bool
  created_at : Nat
  updated_at : Nat
deriving DecidableEq, Repr

/-- Store record (the dictionary built by `generate_stores`). -/
structure Store where
  store_id : String
  store_name : String
  store_type : String
  region : String
  city : String
  state : String
  manager_name : String
  open_date : Nat
  is_active : Bool
  created_at : Nat
  updated_at : Nat
deriving DecidableEq, Repr

/-- Order record (the dictionary built by `generate_orders`). -/
structure Order where
  order_id : String
  customer_id : String
  order_date : Nat
  order_status : String
  shipping_address : String
  payment_method : String
  subtotal : ℚ
  discount_amount : ℚ
  shipping_cost : ℚ
  total_amount : ℚ
  created_at : Nat
  updated_at : Nat
deriving DecidableEq, Repr

/-- Order-item record (the dictionary built inside `generate_orders`). -/
structure OrderItem where
  order_item_id : String
  order_id : String
  product_id : String
  quantity : Nat
  unit_price : ℚ
  discount_percent : ℚ
  line_total : ℚ
  created_at : Nat
deriving DecidableEq, Repr

/-- Per-instance state: `_customer_cache` and `_product_cache`
(the only instance-owned mutable data of `RetailMockDataGenerator`). -/
structure Instance where
  customerCache : List (String × Customer)
  productCache : List (String × Product)
deriving DecidableEq, Repr

/-- An instance with empty caches, as built by `__init__`. -/
def emptyInst : Instance := ⟨[], []⟩

/-- One retail category row of the `CATEGORIES` table. -/
structure Category where
  name : String
  subcategories : List String
  priceMin : ℚ
  priceMax : ℚ
  margin : ℚ
deriving DecidableEq, Repr

/-- The `CATEGORIES` class table (insertion order of the source dict). -/
def categoriesL : List Category :=
  [⟨"Electronics", ["Smartphones", "Laptops", "Tablets", "Accessories", "TVs"],
    9999 / 100, 999999 / 100, 1 / 4⟩,
   ⟨"Fashion",
    ["Men's Clothing", "Women's Clothing", "Shoes", "Accessories", "Sportswear"],
    2999 / 100, 79999 / 100, 9 / 20⟩,
   ⟨"Home & Garden", ["Furniture", "Decor", "Kitchen", "Bedding", "Garden"],
    1999 / 100, 299999 / 100, 7 / 20⟩,
   ⟨"Beauty", ["Skincare", "Makeup", "Haircare", "Fragrances", "Personal Care"],
    1499 / 100, 49999 / 100, 11 / 20⟩,
   ⟨"Grocery", ["Fresh", "Pantry", "Beverages", "Frozen", "Organic"],
    299 / 100, 19999 / 100, 1 / 5⟩]

/-- Default category row used for the (unreachable) out-of-range index. -/
instance : Inhabited Category := ⟨⟨"", [], 0, 0, 0⟩⟩

/-- The `BRANDS` class table. -/
def BRANDS : List String :=
  ["TechMax", "StyleCo", "HomeEssentials", "BeautyPro", "FreshMarket",
   "ElectroPrime", "FashionForward", "ComfortZone", "GlowUp", "NaturalChoice",
   "SmartLife", "UrbanStyle", "CasaFeliz", "BelezaPura", "SaborNatural"]

/-- `CUSTOMER_SEGMENTS` with `SEGMENT_WEIGHTS`. -/
def segmentsW : List (String × ℚ) :=
  [("BRONZE", 1 / 2), ("SILVER", 3 / 10), ("GOLD", 3 / 20), ("PLATINUM", 1 / 20)]

/-- `ORDER_STATUSES` with `STATUS_WEIGHTS`. -/
def statusesW : List (String × ℚ) :=
  [("PENDING", 1 / 20), ("CONFIRMED", 1 / 10), ("SHIPPED", 3 / 20),
   ("DELIVERED", 3 / 5), ("CANCELLED", 1 / 20), ("RETURNED", 1 / 20)]

/-- `PAYMENT_METHODS` with `PAYMENT_WEIGHTS`. -/
def paymentsW : List (String × ℚ) :=
  [("CREDIT_CARD", 7 / 20), ("DEBIT_CARD", 3 / 20), ("PIX", 3 / 10),
   ("BOLETO", 1 / 10), ("WALLET", 1 / 10)]

/-- `STORE_TYPES` with the inline weights of `generate_stores`. -/
def storeTypesW : List (String × ℚ) :=
  [("FLAGSHIP", 1 / 20), ("STANDARD", 7 / 10), ("OUTLET", 3 / 20),
   ("POPUP", 1 / 20), ("WAREHOUSE", 1 / 20)]

/-- The `region_weights` table of `generate_stores`. -/
def regionW : List (String × ℚ) :=
  [("Norte", 2 / 25), ("Nordeste", 27 / 100), ("Centro-Oeste", 2 / 25),
   ("Sudeste", 21 / 50), ("Sul", 3 / 20)]

/-- The `BRAZILIAN_REGIONS` class table. -/
def brazilianRegions : List (String × List String) :=
  [("Norte", ["AC", "AP", "AM", "PA", "RO", "RR", "TO"]),
   ("Nordeste", ["AL", "BA", "CE", "MA", "PB", "PE", "PI", "RN", "SE"]),
   ("Centro-Oeste", ["DF", "GO", "MT", "MS"]),
   ("Sudeste", ["ES", "MG", "RJ", "SP"]),
   ("Sul", ["PR", "RS", "SC"])]

/-- The order-level discount factor list of `generate_orders`
(line 380: `random.choice([0, 0, 0.05, 0.10])`). -/
def discountFactors : List ℚ := [0, 0, 1 / 20, 1 / 10]

/-- The item-level discount-percent list of `generate_orders`
(line 358: `random.choice([0, 0, 0, 5, 10, 15, 20])`). -/
def itemDiscounts : List ℚ := [0, 0, 0, 5, 10, 15, 20]

/-- The shipping-cost list of `generate_orders`
(line 383: `random.choice([0, 9.99, 14.99, 19.99, 29.99])`). -/
def shippingCosts : List ℚ := [0, 999 / 100, 1499 / 100, 1999 / 100, 2999 / 100]

/-- Body of the `generate_customers` loop for index `i`: every draw of the
source, in source order (registration date, time, updated, the dict fields,
segment via weighted choice, activity via `random.random() > 0.05`). -/
def genCustomerStep (g : GState) (i : Nat) : Customer × GState :=
  let cid := custId (i + 1)
  let (regDate, g1) := fakeNat g
  let (timeObj, g2) := fakeNat g1
  let createdAt := regDate * 1000000 + timeObj
  let (dUpd, g3) := fakeNat g2
  let updatedAt := createdAt + dUpd
  let (fn, g4) := fakeStr g3 "first-name-"
  let (ln, g5) := fakeStr g4 "last-name-"
  let (em, g6) := fakeStr g5 "email-"
  let (ph, g7) := fakeStr g6 "phone-"
  let (ad, g8) := fakeStr g7 "street-"
  let (ct, g9) := fakeStr g8 "city-"
  let (uf, g10) := fakeStr g9 "estado-"
  let (pc, g11) := fakeStr g10 "postcode-"
  let (seg, g12) := weightedChoice g11 segmentsW
  let (act, g13) := pyRandom g12
  (⟨cid, fn, ln, em, ph, ad, ct, uf, pc, "BR", seg, regDate,
    decide ((1 : ℚ) / 20 < act), createdAt, updatedAt⟩, g13)

/-- The `for i in range(count)` loop of `generate_customers`, threading the
global state and the instance cache (`self._customer_cache[cid] = customer`). -/
def customersLoop (g : GState) (inst : Instance) :
    List Nat → List Customer × GState × Instance
  | [] => ([], g, inst)
  | i :: rest =>
    let (c, g') := genCustomerStep g i
    let inst' : Instance := ⟨dictInsert inst.customerCache c.customer_id c,
                             inst.productCache⟩
    let (cs, g'', inst'') := customersLoop g' inst' rest
    (c :: cs, g'', inst'')

/-- `RetailMockDataGenerator.generate_customers`. -/
def generate_customers (g : GState) (inst : Instance) (count : Int) :
    List Customer × GState × Instance :=
  customersLoop g inst (pyRange count)

/-- Body of the `generate_products` loop for index `i`, in source draw
order: category, subcategory, uniform price, timestamps, then the dict
fields (brand + word for the name, a second brand draw, stock, activity). -/
def genProductStep (g : GState) (i : Nat) : Product × GState :=
  let pid := skuId (i + 1)
  let (cidx, g1) := randIdx g categoriesL.length
  let cat := categoriesL.getD cidx default
  let (sub, g2) := pyChoice g1 cat.subcategories
  let (u, g3) := pyUniform g2 cat.priceMin cat.priceMax
  let unitPrice := qround2 u
  let unitCost := qround2 (unitPrice * (1 - cat.margin))
  let (createdAt, g4) := fakeNat g3
  let (dUpd, g5) := fakeNat g4
  let updatedAt := createdAt + dUpd
  let (b1, g6) := pyChoice g5 BRANDS
  let (w, g7) := fakeStr g6 "word-"
  let pname := b1 ++ " " ++ sub ++ " " ++ w
  let catIdStr := "CAT-" ++ natStrZ 3 (cidx + 1)
  let (b2, g8) := pyChoice g7 BRANDS
  let (stock, g9) := pyRandint g8 0 1000
  let (act, g10) := pyRandom g9
  (⟨pid, pname, catIdStr, cat.name, sub, b2, unitPrice, unitCost, stock,
    decide ((1 : ℚ) / 10 < act), createdAt, updatedAt⟩, g10)

/-- The `for i in range(count)` loop of `generate_products`, threading the
global state and `self._product_cache`. -/
def productsLoop (g : GState) (inst : Instance) :
    List Nat → List Product × GState × Instance
  | [] => ([], g, inst)
  | i :: rest =>
    let (p, g') := genProductStep g i
    let inst' : Instance := ⟨inst.customerCache,
                             dictInsert inst.productCache p.product_id p⟩
    let (ps, g'', inst'') := productsLoop g' inst' rest
    (p :: ps, g'', inst'')

/-- `RetailMockDataGenerator.generate_products`. -/
def generate_products (g : GState) (inst : Instance) (count : Int) :
    List Product × GState × Instance :=
  productsLoop g inst (pyRange count)

/-- Body of the `generate_stores` loop for index `i`, in source draw order. -/
def genStoreStep (g : GState) (i : Nat) : Store × GState :=
  let sid := storeId (i + 1)
  let (reg, g1) := weightedChoice g regionW
  let (uf, g2) := pyChoice g1 ((dictFind brazilianRegions reg).getD [])
  let (openDate, g3) := fakeNat g2
  let (timeObj, g4) := fakeNat g3
  let createdAt := openDate * 1000000 + timeObj
  let (dUpd, g5) := fakeNat g4
  let updatedAt := createdAt + dUpd
  let (cityA, g6) := fakeStr g5 "city-"
  let sname := "Loja " ++ cityA ++ " - " ++ uf
  let (stype, g7) := weightedChoice g6 storeTypesW
  let (cityB, g8) := fakeStr g7 "city-"
  let (mgr, g9) := fakeStr g8 "name-"
  let (act, g10) := pyRandom g9
  (⟨sid, sname, stype, reg, cityB, uf, mgr, openDate,
    decide ((1 : ℚ) / 20 < act), createdAt, updatedAt⟩, g10)

/-- The `for i in range(count)` loop of `generate_stores` (no cache). -/
def storesLoop (g : GState) : List Nat → List Store × GState
  | [] => ([], g)
  | i :: rest =>
    let (s, g') := genStoreStep g i
    let (ss, g'') := storesLoop g' rest
    (s :: ss, g'')

/-- `RetailMockDataGenerator.generate_stores`. -/
def generate_stores (g : GState) (count : Int) : List Store × GState :=
  storesLoop g (pyRange count)

/-- Body of the item loop of `generate_orders` for item index `j`: product
choice, cache lookup, quantity, the always-evaluated fallback uniform price
(`product.get("unit_price", Decimal(str(random.uniform(10, 500))))`),
item discount choice and the quantized line total. -/
def genItem (g : GState) (inst : Instance) (oid : String) (odate : Nat)
    (pids : List String) (j : Nat) : OrderItem × GState :=
  let (pid, g1) := pyChoice g pids
  let prod := dictFind inst.productCache pid
  let (q, g2) := pyRandint g1 1 5
  let (uFall, g3) := pyUniform g2 10 500
  let unitPrice := (prod.map (fun p => p.unit_price)).getD uFall
  let (dp, g4) := pyChoice g3 itemDiscounts
  let lineTotal := qround2 ((q : ℚ) * unitPrice * (1 - dp / 100))
  (⟨itemId oid (j + 1), oid, pid, q, unitPrice, dp, lineTotal, odate⟩, g4)

/-- The `for j in range(num_items)` loop of `generate_orders`, returning
the items of one order together with the accumulated subtotal. -/
def itemsLoop (g : GState) (inst : Instance) (oid : String) (odate : Nat)
    (pids : List String) : List Nat → List OrderItem × ℚ × GState
  | [] => ([], 0, g)
  | j :: rest =>
    let (it, g') := genItem g inst oid odate pids j
    let (its, sub, g'') := itemsLoop g' inst oid odate pids rest
    (it :: its, it.line_total + sub, g'')

/-- First draws of one `generate_orders` iteration: customer choice, order
date, and the hardcoded `max(1, int(random.gauss(3, 1.5)))` item count
capped at 10 (`num_items = min(num_items, 10)`). -/
def orderHead (g : GState) (cids : List String) :
    String × Nat × Nat × GState :=
  let (cid, g1) := pyChoice g cids
  let (odate, g2) := fakeNat g1
  let (z, g3) := pyGauss g2 3 (3 / 2)
  (cid, odate, (min (max 1 (ratTrunc z)) 10).toNat, g3)

/-- Final draws of one `generate_orders` iteration: order-level discount,
shipping cost, exact total, status, address, payment and update draws,
assembling the order dictionary. -/
def orderTail (g4 : GState) (oid cid : String) (odate : Nat)
    (subtotal : ℚ) : Order × GState :=
  let (df, g5) := pyChoice g4 discountFactors
  let discount := qround2 (subtotal * df)
  let (ship, g6) := pyChoice g5 shippingCosts
  let total := subtotal - discount + ship
  let (status, g7) := weightedChoice g6 statusesW
  let (addr, g8) := fakeStr g7 "address-"
  let (pay, g9) := weightedChoice g8 paymentsW
  let (dUpd, g10) := fakeNat g9
  (⟨oid, cid, odate, status, addr, pay, subtotal, discount, ship, total,
    odate, odate + dUpd⟩, g10)

/-- Body of the order loop of `generate_orders` for order index `i`:
the head draws, the item loop accumulating the subtotal, then the
order-level tail draws. -/
def genOrder (g : GState) (inst : Instance) (cids pids : List String)
    (i : Nat) : Order × List OrderItem × GState :=
  let oid := ordId (i + 1)
  let h := orderHead g cids
  let r := itemsLoop h.2.2.2 inst oid h.2.1 pids (List.range h.2.2.1)
  let t := orderTail r.2.2 oid h.1 h.2.1 r.2.1
  (t.1, r.1, t.2)

/-- The `for i in range(count)` loop of `generate_orders`, concatenating
the per-order item blocks in order (`order_items.extend(items)`). -/
def ordersLoop (g : GState) (inst : Instance) (cids pids : List String) :
    List Nat → List Order × List OrderItem × GState
  | [] => ([], [], g)
  | i :: rest =>
    let (o, its, g') := genOrder g inst cids pids i
    let (os, allIts, g'') := ordersLoop g' inst cids pids rest
    (o :: os, its ++ allIts, g'')

/-- The error message raised by `generate_orders` when neither supplied
nor cached customer or product identifiers exist. -/
def missingIdsMsg : String :=
  "Must provide customer and product IDs, or generate them first"

/-- `RetailMockDataGenerator.generate_orders`: resolve the effective ID
pools (`None` falls back to the instance caches), fail fast on an empty
pool, then run the order loop. -/
def generate_orders (g : GState) (inst : Instance) (count : Int)
    (customer_ids product_ids : Option (List String)) :
    Except String (List Order × List OrderItem × GState) :=
  let cids := customer_ids.getD (dictKeys inst.customerCache)
  let pids := product_ids.getD (dictKeys inst.productCache)
  if cids = [] ∨ pids = [] then Except.error missingIdsMsg
  else Except.ok (ordersLoop g inst cids pids (pyRange count))

/-- The dataset dictionary returned by `generate_all`. -/
structure AllData where
  customers : List Customer
  products : List Product
  stores : List Store
  orders : List Order
  order_items : List OrderItem
deriving DecidableEq, Repr

/-- `RetailMockDataGenerator.generate_all`: reseed the global state from
the config, then run the four generators in dependency order. -/
def generate_all (_g : GState) (inst : Instance) (cfg : GeneratorConfig) :
    Except String (AllData × GState × Instance) :=
  let g0 := seedState cfg.seed
  let c := generate_customers g0 inst cfg.num_customers
  let p := generate_products c.2.1 c.2.2 cfg.num_products
  let s := generate_stores p.2.1 cfg.num_stores
  match generate_orders s.2 p.2.2 cfg.num_orders none none with
  | Except.error e => Except.error e
  | Except.ok (os, its, g4) => Except.ok (⟨c.1, p.1, s.1, os, its⟩, g4, p.2.2)

/-- `RetailMockDataGenerator.__init__(seed)`: overwrite the process-global
RNG and Faker state with the seeded state and start with empty caches.
The previous global state is discarded, whichever instance owned it. -/
def mkGenerator (_prev : GState) (seed : Int) : GState × Instance :=
  (seedState seed, emptyInst)

deriving instance DecidableEq for Except

/-- Projection of a successful `generate_orders` result: the orders. -/
def okOrders (r : Except String (List Order × List OrderItem × GState)) :
    List Order :=
  match r with
  | Except.ok t => t.1
  | Except.error _ => []

/-- Projection of a successful `generate_orders` result: the order items. -/
def okItems (r : Except String (List Order × List OrderItem × GState)) :
    List OrderItem :=
  match r with
  | Except.ok t => t.2.1
  | Except.error _ => []

/-- Projection of a successful `generate_orders` result: the final state. -/
def okG (r : Except String (List Order × List OrderItem × GState)) : GState :=
  match r with
  | Except.ok t => t.2.2
  | Except.error _ => ⟨0, 0⟩

/-- Projection of a successful `generate_all` result: the customers. -/
def allC (r : Except String (AllData × GState × Instance)) : List Customer :=
  match r with
  | Except.ok t => t.1.customers
  | Except.error _ => []

/-- Projection of a successful `generate_all` result: the products. -/
def allP (r : Except String (AllData × GState × Instance)) : List Product :=
  match r with
  | Except.ok t => t.1.products
  | Except.error _ => []

/-- Projection of a successful `generate_all` result: the stores. -/
def allS (r : Except String (AllData × GState × Instance)) : List Store :=
  match r with
  | Except.ok t => t.1.stores
  | Except.error _ => []

/-- The customers-products-stores run of a freshly constructed instance:
`generate_customers`, `generate_products`, `generate_stores` in the call
order also used by `generate_all`. -/
def runCPS (gi : GState × Instance) (cfg : GeneratorConfig) :
    List Customer × List Product × List Store :=
  let c := generate_customers gi.1 gi.2 cfg.num_customers
  let p := generate_products c.2.1 c.2.2 cfg.num_products
  let s := generate_stores p.2.1 cfg.num_stores
  (c.1, p.1, s.1)

/-- A default product record (only used as the `getD` fallback when a
witness picks the first element of a generated batch). -/
instance : Inhabited Product :=
  ⟨⟨"", "", "", "", "", "", 0, 0, 0, false, 0, 0⟩⟩

/-- A small concrete `generate_orders` call used by concrete witnesses. -/
def wOrdersCall : Except String (List Order × List OrderItem × GState) :=
  generate_orders (seedState 7) emptyInst 1 (some ["c1"]) (some ["p1"])

/-- A small concrete configuration used by concrete witnesses. -/
def cfgW : GeneratorConfig := ⟨1, 1, 1, 1, 3, 11⟩

/-- The first product of a small concrete `generate_products` batch. -/
def pW : Product := (generate_products (seedState 1) emptyInst 1).1.getD 0 default

lemma digitVal_digitChar {d : Nat} (h : d < 10) : digitVal (digitChar d) = d := by
  interval_cases d <;> decide

lemma foldl_parse_replicate_zero (k : Nat) (a : Nat) :
    List.foldl (fun acc c => acc * 10 + digitVal c) a (List.replicate k '0') =
      a * 10 ^ k := by
  induction k generalizing a with
  | zero => simp
  | succ k ih =>
    rw [List.replicate_succ, List.foldl_cons, ih]
    have hv : digitVal '0' = 0 := by decide
    rw [hv]
    ring

lemma foldl_parse_decReprAux (fuel : Nat) :
    ∀ n a, n < fuel →
      List.foldl (fun acc c => acc * 10 + digitVal c) a (decReprAux fuel n) =
        a * 10 ^ (decReprAux fuel n).length + n := by
  induction fuel with
  | zero => intro n a h; omega
  | succ fuel ih =>
    intro n a h
    by_cases h10 : n < 10
    · simp only [decReprAux, if_pos h10, List.foldl_cons, List.foldl_nil,
        List.length_cons, List.length_nil, digitVal_digitChar h10]
      ring
    · have hdiv : n / 10 < fuel := by
        have h1 : n / 10 < n := Nat.div_lt_self (by omega) (by omega)
        omega
      simp only [decReprAux, if_neg h10, List.foldl_append, List.foldl_cons,
        List.foldl_nil, List.length_append, List.length_cons, List.length_nil,
        ih (n / 10) a hdiv]
      have hm : digitVal (digitChar (n % 10)) = n % 10 :=
        digitVal_digitChar (Nat.mod_lt _ (by omega))
      rw [hm, pow_succ]
      have := Nat.div_add_mod n 10
      ring_nf
      omega

lemma parseDigits_zfill_decRepr (w n : Nat) :
    parseDigits (zfillChars w (decRepr n)) = n := by
  unfold parseDigits zfillChars decRepr
  rw [List.foldl_append, foldl_parse_replicate_zero, zero_mul,
    foldl_parse_decReprAux (n + 1) n 0 (Nat.lt_succ_self n)]
  ring

lemma custId_inj : Function.Injective custId := by
  intro m n h
  have h2 := congrArg (fun s : String => parseDigits (List.drop 5 s.data)) h
  simpa [custId, parseDigits_zfill_decRepr] using h2

lemma skuId_inj : Function.Injective skuId := by
  intro m n h
  have h2 := congrArg (fun s : String => parseDigits (List.drop 4 s.data)) h
  simpa [skuId, parseDigits_zfill_decRepr] using h2

lemma ordId_inj : Function.Injective ordId := by
  intro m n h
  have h2 := congrArg (fun s : String => parseDigits (List.drop 4 s.data)) h
  simpa [ordId, parseDigits_zfill_decRepr] using h2

lemma dictFind_dictInsert (d : List (String × α)) (k key : String) (v : α) :
    dictFind (dictInsert d k v) key =
      if key = k then some v else dictFind d key := by
  induction d with
  | nil => simp [dictInsert, dictFind]
  | cons p rest ih =>
    obtain ⟨k0, v0⟩ := p
    by_cases hk : k0 = k
    · subst hk
      by_cases hkey : key = k0 <;> simp [dictInsert, dictFind, hkey]
    · by_cases hkey : key = k0
      · subst hkey
        simp [dictInsert, dictFind, hk, Ne.symm hk]
      · simp [dictInsert, dictFind, hk, hkey, ih]

lemma dictInsert_ne_nil (d : List (String × α)) (k : String) (v : α) :
    dictInsert d k v ≠ [] := by
  cases d with
  | nil => simp [dictInsert]
  | cons p rest =>
    obtain ⟨k0, v0⟩ := p
    by_cases hk : k0 = k <;> simp [dictInsert, hk]

lemma pyChoice_mem [Inhabited α] (g : GState) (l : List α) (h : l ≠ []) :
    (pyChoice g l).1 ∈ l := by
  have hlen : 0 < l.length := List.length_pos.mpr h
  have hlt : rngNext g.rand % l.length < l.length := Nat.mod_lt _ hlen
  simp only [pyChoice]
  rw [List.getD_eq_getElem l default hlt]
  exact List.getElem_mem hlt

lemma genCustomerStep_id (g : GState) (i : Nat) :
    (genCustomerStep g i).1.customer_id = custId (i + 1) := rfl

lemma customersLoop_ids (is : List Nat) :
    ∀ g inst, ((customersLoop g inst is).1.map (fun c => c.customer_id)) =
      is.map (fun k => custId (k + 1)) := by
  induction is with
  | nil => intro g inst; simp [customersLoop]
  | cons i rest ih =>
    intro g inst
    simp only [customersLoop, List.map_cons]
    rw [genCustomerStep_id]
    exact congrArg _ (ih _ _)

lemma customersLoop_inst_irrel (is : List Nat) :
    ∀ g i j, (customersLoop g i is).1 = (customersLoop g j is).1 ∧
      (customersLoop g i is).2.1 = (customersLoop g j is).2.1 := by
  induction is with
  | nil => intro g i j; exact ⟨rfl, rfl⟩
  | cons x rest ih =>
    intro g i j
    simp only [customersLoop]
    obtain ⟨h1, h2⟩ := ih (genCustomerStep g x).2
      ⟨dictInsert i.customerCache (genCustomerStep g x).1.customer_id
        (genCustomerStep g x).1, i.productCache⟩
      ⟨dictInsert j.customerCache (genCustomerStep g x).1.customer_id
        (genCustomerStep g x).1, j.productCache⟩
    exact ⟨by rw [h1], h2⟩

lemma customersLoop_product_cache (is : List Nat) :
    ∀ g inst, (customersLoop g inst is).2.2.productCache =
      inst.productCache := by
  induction is with
  | nil => intro g inst; rfl
  | cons x rest ih => intro g inst; exact ih _ _

lemma customersLoop_find_preserve (is : List Nat) :
    ∀ g inst key, (∀ k ∈ is, custId (k + 1) ≠ key) →
      dictFind (customersLoop g inst is).2.2.customerCache key =
        dictFind inst.customerCache key := by
  induction is with
  | nil => intro g inst key _; rfl
  | cons x rest ih =>
    intro g inst key hk
    simp only [customersLoop]
    rw [ih _ _ key (fun k hmem => hk k (List.mem_cons_of_mem _ hmem)),
      dictFind_dictInsert, genCustomerStep_id,
      if_neg (fun he => hk x (List.mem_cons_self _ _) he.symm)]

lemma customersLoop_find (is : List Nat) (hnd : is.Nodup) :
    ∀ g inst c, c ∈ (customersLoop g inst is).1 →
      dictFind (customersLoop g inst is).2.2.customerCache c.customer_id =
        some c := by
  induction is with
  | nil => intro g inst c hc; simp [customersLoop] at hc
  | cons x rest ih =>
    intro g inst c hc
    simp only [customersLoop, List.mem_cons] at hc ⊢
    rcases hc with hc | hc
    · subst hc
      rw [customersLoop_find_preserve rest _ _ _
        (fun k hmem he => by
          rw [genCustomerStep_id] at he
          have hkx : k = x := by have := custId_inj he; omega
          exact (List.nodup_cons.mp hnd).1 (hkx ▸ hmem)),
        dictFind_dictInsert, if_pos rfl]
    · exact ih (List.nodup_cons.mp hnd).2 _ _ c hc

lemma customersLoop_cache_ne_nil (is : List Nat) :
    ∀ g inst, is ≠ [] ∨ inst.customerCache ≠ [] →
      (customersLoop g inst is).2.2.customerCache ≠ [] := by
  induction is with
  | nil =>
    intro g inst h
    rcases h with h | h
    · exact absurd rfl h
    · exact h
  | cons x rest ih =>
    intro g inst _
    simp only [customersLoop]
    exact ih _ _ (Or.inr (dictInsert_ne_nil _ _ _))

lemma genProductStep_id (g : GState) (i : Nat) :
    (genProductStep g i).1.product_id = skuId (i + 1) := rfl

lemma productsLoop_ids (is : List Nat) :
    ∀ g inst, ((productsLoop g inst is).1.map (fun p => p.product_id)) =
      is.map (fun k => skuId (k + 1)) := by
  induction is with
  | nil => intro g inst; simp [productsLoop]
  | cons i rest ih =>
    intro g inst
    simp only [productsLoop, List.map_cons]
    rw [genProductStep_id]
    exact congrArg _ (ih _ _)

lemma productsLoop_inst_irrel (is : List Nat) :
    ∀ g i j, (productsLoop g i is).1 = (productsLoop g j is).1 ∧
      (productsLoop g i is).2.1 = (productsLoop g j is).2.1 := by
  induction is with
  | nil => intro g i j; exact ⟨rfl, rfl⟩
  | cons x rest ih =>
    intro g i j
    simp only [productsLoop]
    obtain ⟨h1, h2⟩ := ih (genProductStep g x).2
      ⟨i.customerCache, dictInsert i.productCache
        (genProductStep g x).1.product_id (genProductStep g x).1⟩
      ⟨j.customerCache, dictInsert j.productCache
        (genProductStep g x).1.product_id (genProductStep g x).1⟩
    exact ⟨by rw [h1], h2⟩

lemma productsLoop_customer_cache (is : List Nat) :
    ∀ g inst, (productsLoop g inst is).2.2.customerCache =
      inst.customerCache := by
  induction is with
  | nil => intro g inst; rfl
  | cons x rest ih => intro g inst; exact ih _ _

lemma productsLoop_find_preserve (is : List Nat) :
    ∀ g inst key, (∀ k ∈ is, skuId (k + 1) ≠ key) →
      dictFind (productsLoop g inst is).2.2.productCache key =
        dictFind inst.productCache key := by
  induction is with
  | nil => intro g inst key _; rfl
  | cons x rest ih =>
    intro g inst key hk
    simp only [productsLoop]
    rw [ih _ _ key (fun k hmem => hk k (List.mem_cons_of_mem _ hmem)),
      dictFind_dictInsert, genProductStep_id,
      if_neg (fun he => hk x (List.mem_cons_self _ _) he.symm)]

lemma productsLoop_find (is : List Nat) (hnd : is.Nodup) :
    ∀ g inst p, p ∈ (productsLoop g inst is).1 →
      dictFind (productsLoop g inst is).2.2.productCache p.product_id =
        some p := by
  induction is with
  | nil => intro g inst p hp; simp [productsLoop] at hp
  | cons x rest ih =>
    intro g inst p hp
    simp only [productsLoop, List.mem_cons] at hp ⊢
    rcases hp with hp | hp
    · subst hp
      rw [productsLoop_find_preserve rest _ _ _
        (fun k hmem he => by
          rw [genProductStep_id] at he
          have hkx : k = x := by have := skuId_inj he; omega
          exact (List.nodup_cons.mp hnd).1 (hkx ▸ hmem)),
        dictFind_dictInsert, if_pos rfl]
    · exact ih (List.nodup_cons.mp hnd).2 _ _ p hp

lemma productsLoop_cache_ne_nil (is : List Nat) :
    ∀ g inst, is ≠ [] ∨ inst.productCache ≠ [] →
      (productsLoop g inst is).2.2.productCache ≠ [] := by
  induction is with
  | nil =>
    intro g inst h
    rcases h with h | h
    · exact absurd rfl h
    · exact h
  | cons x rest ih =>
    intro g inst _
    simp only [productsLoop]
    exact ih _ _ (Or.inr (dictInsert_ne_nil _ _ _))

lemma ratFloor_le (x : ℚ) : (Rat.floor x : ℚ) ≤ x :=
  Rat.le_floor.mp le_rfl

lemma lt_ratFloor_add_one (x : ℚ) : x < Rat.floor x + 1 := by
  by_contra h
  push_neg at h
  have h2 : Rat.floor x + 1 ≤ Rat.floor x := Rat.le_floor.mpr (by push_cast; linarith)
  omega

lemma rhe_le (x : ℚ) : (rhe x : ℚ) ≤ x + 1 / 2 := by
  have h1 := ratFloor_le x
  have h2 := lt_ratFloor_add_one x
  simp only [rhe]
  split_ifs <;> push_cast <;> linarith

lemma le_rhe (x : ℚ) : x - 1 / 2 ≤ (rhe x : ℚ) := by
  have h1 := ratFloor_le x
  have h2 := lt_ratFloor_add_one x
  simp only [rhe]
  split_ifs <;> push_cast <;> linarith

lemma qround2_le (x : ℚ) : qround2 x ≤ x + 1 / 200 := by
  have h := rhe_le (100 * x)
  simp only [qround2]
  linarith

lemma qround2_ge (x : ℚ) : x - 1 / 200 ≤ qround2 x := by
  have h := le_rhe (100 * x)
  simp only [qround2]
  linarith

lemma qround2_is2dp (x : ℚ) : is2dp (qround2 x) := ⟨rhe (100 * x), rfl⟩

lemma pyUniform_ge (g : GState) (a b : ℚ) (hab : a ≤ b) :
    a ≤ (pyUniform g a b).1 := by
  simp only [pyUniform]
  have ht : (0 : ℚ) ≤ ((rngNext g.rand % 1001 : ℕ) : ℚ) / 1000 := by positivity
  nlinarith

lemma cost_le_price (u m : ℚ) (hu : (299 : ℚ) / 100 ≤ u) (hm : (1 : ℚ) / 5 ≤ m) :
    qround2 (qround2 u * (1 - m)) ≤ qround2 u := by
  have hP : (597 : ℚ) / 200 ≤ qround2 u := le_trans (by linarith) (qround2_ge u)
  have h1 := qround2_le (qround2 u * (1 - m))
  have hPm : (597 : ℚ) / 1000 ≤ qround2 u * m := by nlinarith
  nlinarith

lemma categoriesL_facts :
    ∀ c ∈ categoriesL, (299 : ℚ) / 100 ≤ c.priceMin ∧ c.priceMin ≤ c.priceMax ∧
      (1 : ℚ) / 5 ≤ c.margin ∧ c.margin ≤ (11 : ℚ) / 20 := by
  intro c hc
  fin_cases hc <;>
    exact ⟨by norm_num, by norm_num, by norm_num, by norm_num⟩

set_option maxRecDepth 8000 in
lemma genProductStep_cost_spec (g : GState) (i : Nat) :
    ∃ c ∈ categoriesL,
      (genProductStep g i).1.unit_cost =
        qround2 ((genProductStep g i).1.unit_price * (1 - c.margin)) ∧
      (genProductStep g i).1.unit_cost ≤ (genProductStep g i).1.unit_price := by
  have hlen : 0 < categoriesL.length := by decide
  have hlt : (randIdx g categoriesL.length).1 < categoriesL.length := by
    simp only [randIdx]
    exact Nat.mod_lt _ hlen
  set c := categoriesL.getD (randIdx g categoriesL.length).1 default with hc
  have hmem : c ∈ categoriesL := by
    rw [hc, List.getD_eq_getElem _ _ hlt]
    exact List.getElem_mem hlt
  obtain ⟨hmin, hminmax, hmarg, _⟩ := categoriesL_facts c hmem
  refine ⟨c, hmem, ?_⟩
  simp only [genProductStep, ← hc]
  refine ⟨trivial, ?_⟩
  exact cost_le_price _ _
    (le_trans hmin (pyUniform_ge _ _ _ hminmax)) hmarg

lemma productsLoop_cost (is : List Nat) :
    ∀ g inst p, p ∈ (productsLoop g inst is).1 →
      ∃ c ∈ categoriesL,
        p.unit_cost = qround2 (p.unit_price * (1 - c.margin)) ∧
        p.unit_cost ≤ p.unit_price := by
  induction is with
  | nil => intro g inst p hp; simp [productsLoop] at hp
  | cons x rest ih =>
    intro g inst p hp
    simp only [productsLoop, List.mem_cons] at hp
    rcases hp with hp | hp
    · subst hp; exact genProductStep_cost_spec g x
    · exact ih _ _ p hp

lemma genItem_oid (g : GState) (inst : Instance) (oid : String) (odate : Nat)
    (pids : List String) (j : Nat) :
    (genItem g inst oid odate pids j).1.order_id = oid := rfl

lemma genItem_pid_mem (g : GState) (inst : Instance) (oid : String)
    (odate : Nat) (pids : List String) (j : Nat) (h : pids ≠ []) :
    (genItem g inst oid odate pids j).1.product_id ∈ pids := by
  simp only [genItem]
  exact pyChoice_mem _ _ h

lemma genItem_lt_2dp (g : GState) (inst : Instance) (oid : String)
    (odate : Nat) (pids : List String) (j : Nat) :
    is2dp (genItem g inst oid odate pids j).1.line_total := by
  simp only [genItem]
  exact qround2_is2dp _

lemma itemsLoop_props (inst : Instance) (oid : String) (odate : Nat)
    (pids : List String) (h : pids ≠ []) (js : List Nat) :
    ∀ g it, it ∈ (itemsLoop g inst oid odate pids js).1 →
      it.order_id = oid ∧ it.product_id ∈ pids ∧ is2dp it.line_total := by
  induction js with
  | nil => intro g it hit; simp [itemsLoop] at hit
  | cons j rest ih =>
    intro g it hit
    simp only [itemsLoop, List.mem_cons] at hit
    rcases hit with hit | hit
    · subst hit
      exact ⟨genItem_oid _ _ _ _ _ _, genItem_pid_mem _ _ _ _ _ _ h,
        genItem_lt_2dp _ _ _ _ _ _⟩
    · exact ih _ it hit

lemma itemsLoop_subtotal (inst : Instance) (oid : String) (odate : Nat)
    (pids : List String) (js : List Nat) :
    ∀ g, (itemsLoop g inst oid odate pids js).2.1 =
      (((itemsLoop g inst oid odate pids js).1).map
        (fun it => it.line_total)).sum := by
  induction js with
  | nil => intro g; simp [itemsLoop]
  | cons j rest ih =>
    intro g
    simp only [itemsLoop, List.map_cons, List.sum_cons]
    rw [ih]

lemma itemsLoop_length (inst : Instance) (oid : String) (odate : Nat)
    (pids : List String) (js : List Nat) :
    ∀ g, (itemsLoop g inst oid odate pids js).1.length = js.length := by
  induction js with
  | nil => intro g; rfl
  | cons j rest ih =>
    intro g
    simp only [itemsLoop, List.length_cons]
    rw [ih]

lemma numItems_toNat_bounds (z : ℤ) :
    1 ≤ (min (max 1 z) 10).toNat ∧ (min (max 1 z) 10).toNat ≤ 10 := by
  have h1 : (1 : ℤ) ≤ min (max 1 z) 10 := le_min (le_max_left _ _) (by norm_num)
  have h2 : min (max 1 z) 10 ≤ 10 := min_le_right _ _
  omega

lemma discountFactors_ne_nil : discountFactors ≠ [] := by
  simp [discountFactors]

lemma orderHead_cid_mem (g : GState) (cids : List String) (hc : cids ≠ []) :
    (orderHead g cids).1 ∈ cids :=
  pyChoice_mem g cids hc

lemma orderHead_numItems (g : GState) (cids : List String) :
    1 ≤ (orderHead g cids).2.2.1 ∧ (orderHead g cids).2.2.1 ≤ 10 :=
  numItems_toNat_bounds
    (ratTrunc (pyGauss (fakeNat (pyChoice g cids).2).2 3 (3 / 2)).1)

lemma orderTail_oid (g4 : GState) (oid cid : String) (odate : Nat) (st : ℚ) :
    (orderTail g4 oid cid odate st).1.order_id = oid := rfl

lemma orderTail_cid (g4 : GState) (oid cid : String) (odate : Nat) (st : ℚ) :
    (orderTail g4 oid cid odate st).1.customer_id = cid := rfl

lemma orderTail_sub (g4 : GState) (oid cid : String) (odate : Nat) (st : ℚ) :
    (orderTail g4 oid cid odate st).1.subtotal = st := rfl

lemma orderTail_discount (g4 : GState) (oid cid : String) (odate : Nat)
    (st : ℚ) :
    ∃ f ∈ discountFactors, (orderTail g4 oid cid odate st).1.discount_amount =
      qround2 (st * f) := by
  simp only [orderTail]
  exact ⟨_, pyChoice_mem _ _ discountFactors_ne_nil, rfl⟩

lemma orderTail_discount_2dp (g4 : GState) (oid cid : String) (odate : Nat)
    (st : ℚ) :
    is2dp (orderTail g4 oid cid odate st).1.discount_amount := by
  simp only [orderTail]
  exact qround2_is2dp _

lemma orderTail_ship_mem (g4 : GState) (oid cid : String) (odate : Nat)
    (st : ℚ) :
    (orderTail g4 oid cid odate st).1.shipping_cost ∈ shippingCosts := by
  simp only [orderTail]
  exact pyChoice_mem _ _ (by simp [shippingCosts])

lemma orderTail_total (g4 : GState) (oid cid : String) (odate : Nat)
    (st : ℚ) :
    (orderTail g4 oid cid odate st).1.total_amount =
      st - (orderTail g4 oid cid odate st).1.discount_amount +
      (orderTail g4 oid cid odate st).1.shipping_cost := by
  simp only [orderTail]

lemma orderTail_spec (g4 : GState) (oid cid : String) (odate : Nat)
    (st : ℚ) :
    (orderTail g4 oid cid odate st).1.order_id = oid ∧
    (orderTail g4 oid cid odate st).1.customer_id = cid ∧
    (orderTail g4 oid cid odate st).1.subtotal = st ∧
    (∃ f ∈ discountFactors, (orderTail g4 oid cid odate st).1.discount_amount =
      qround2 (st * f)) ∧
    is2dp (orderTail g4 oid cid odate st).1.discount_amount ∧
    (orderTail g4 oid cid odate st).1.shipping_cost ∈ shippingCosts ∧
    (orderTail g4 oid cid odate st).1.total_amount =
      st - (orderTail g4 oid cid odate st).1.discount_amount +
      (orderTail g4 oid cid odate st).1.shipping_cost :=
  ⟨orderTail_oid g4 oid cid odate st, orderTail_cid g4 oid cid odate st,
    orderTail_sub g4 oid cid odate st, orderTail_discount g4 oid cid odate st,
    orderTail_discount_2dp g4 oid cid odate st,
    orderTail_ship_mem g4 oid cid odate st,
    orderTail_total g4 oid cid odate st⟩

lemma genOrder_spec (g : GState) (inst : Instance) (cids pids : List String)
    (i : Nat) (hc : cids ≠ []) (hp : pids ≠ []) :
    (genOrder g inst cids pids i).1.order_id = ordId (i + 1) ∧
    (genOrder g inst cids pids i).1.customer_id ∈ cids ∧
    (∀ it ∈ (genOrder g inst cids pids i).2.1,
      it.order_id = ordId (i + 1) ∧ it.product_id ∈ pids ∧
      is2dp it.line_total) ∧
    (genOrder g inst cids pids i).1.subtotal =
      (((genOrder g inst cids pids i).2.1).map
        (fun it => it.line_total)).sum ∧
    (∃ f ∈ discountFactors, (genOrder g inst cids pids i).1.discount_amount =
      qround2 ((genOrder g inst cids pids i).1.subtotal * f)) ∧
    is2dp (genOrder g inst cids pids i).1.discount_amount ∧
    (genOrder g inst cids pids i).1.shipping_cost ∈ shippingCosts ∧
    (genOrder g inst cids pids i).1.total_amount =
      (genOrder g inst cids pids i).1.subtotal -
      (genOrder g inst cids pids i).1.discount_amount +
      (genOrder g inst cids pids i).1.shipping_cost ∧
    1 ≤ (genOrder g inst cids pids i).2.1.length ∧
    (genOrder g inst cids pids i).2.1.length ≤ 10 := by
  simp only [genOrder]
  refine ⟨orderTail_oid _ _ _ _ _, ?_, ?_, ?_, ?_,
    orderTail_discount_2dp _ _ _ _ _, orderTail_ship_mem _ _ _ _ _,
    ?_, ?_, ?_⟩
  · rw [orderTail_cid]
    exact orderHead_cid_mem g cids hc
  · intro it hit
    exact itemsLoop_props inst _ _ pids hp _ _ it hit
  · rw [orderTail_sub, itemsLoop_subtotal]
  · rw [orderTail_sub]
    exact orderTail_discount _ _ _ _ _
  · rw [orderTail_total, orderTail_sub]
  · rw [itemsLoop_length, List.length_range]
    exact (orderHead_numItems g cids).1
  · rw [itemsLoop_length, List.length_range]
    exact (orderHead_numItems g cids).2

lemma ordersLoop_spec (inst : Instance) (cids pids : List String)
    (hc : cids ≠ []) (hp : pids ≠ []) :
    ∀ is : List Nat, is.Nodup → ∀ g : GState,
      ((ordersLoop g inst cids pids is).1.map (fun o => o.order_id) =
        is.map (fun k => ordId (k + 1))) ∧
      (∀ it ∈ (ordersLoop g inst cids pids is).2.1,
        (∃ o ∈ (ordersLoop g inst cids pids is).1,
          it.order_id = o.order_id) ∧
        it.product_id ∈ pids ∧ is2dp it.line_total ∧
        ∃ k ∈ is, it.order_id = ordId (k + 1)) ∧
      (∀ o ∈ (ordersLoop g inst cids pids is).1,
        o.customer_id ∈ cids ∧
        (∃ f ∈ discountFactors,
          o.discount_amount = qround2 (o.subtotal * f)) ∧
        is2dp o.discount_amount ∧ o.shipping_cost ∈ shippingCosts ∧
        o.total_amount = o.subtotal - o.discount_amount + o.shipping_cost ∧
        o.subtotal = (((ordersLoop g inst cids pids is).2.1.filter
          (fun it => it.order_id = o.order_id)).map
            (fun it => it.line_total)).sum ∧
        1 ≤ ((ordersLoop g inst cids pids is).2.1.filter
          (fun it => it.order_id = o.order_id)).length ∧
        ((ordersLoop g inst cids pids is).2.1.filter
          (fun it => it.order_id = o.order_id)).length ≤ 10) := by
  intro is
  induction is with
  | nil =>
    intro _ g
    refine ⟨rfl, ?_, ?_⟩ <;> intro x hx <;> simp [ordersLoop] at hx
  | cons i rest ih =>
    intro hnd g
    obtain ⟨hnotmem, hndrest⟩ := List.nodup_cons.mp hnd
    obtain ⟨s1, s2, s3, s4, s5, s6, s7, s8, s9, s10⟩ :=
      genOrder_spec g inst cids pids i hc hp
    simp only [ordersLoop]
    rcases hgo : genOrder g inst cids pids i with ⟨o0, its0, g1⟩
    rw [hgo] at s1 s2 s3 s4 s5 s6 s7 s8 s9 s10
    dsimp only at s1 s2 s3 s4 s5 s6 s7 s8 s9 s10
    obtain ⟨ih1, ih2, ih3⟩ := ih hndrest g1
    rcases hol : ordersLoop g1 inst cids pids rest with ⟨osR, itsR, g2⟩
    rw [hol] at ih1 ih2 ih3
    dsimp only at ih1 ih2 ih3 ⊢
    refine ⟨?_, ?_, ?_⟩
    · rw [List.map_cons, List.map_cons, s1, ih1]
    · intro it hit
      rcases List.mem_append.mp hit with hin | hin
      · obtain ⟨hoid, hpid, h2dp⟩ := s3 it hin
        exact ⟨⟨o0, List.mem_cons_self _ _, by rw [hoid, s1]⟩, hpid, h2dp,
          ⟨i, List.mem_cons_self _ _, hoid⟩⟩
      · obtain ⟨⟨o, homem, hoe⟩, hpid, h2dp, k, hk, hke⟩ := ih2 it hin
        exact ⟨⟨o, List.mem_cons_of_mem _ homem, hoe⟩, hpid, h2dp,
          ⟨k, List.mem_cons_of_mem _ hk, hke⟩⟩
    · intro o ho
      rcases List.mem_cons.mp ho with rfl | hin
      · have hfL : its0.filter (fun it => it.order_id = o.order_id) = its0 :=
          List.filter_eq_self.mpr (fun a ha => by
            simp [(s3 a ha).1, s1])
        have hfR : itsR.filter (fun it => it.order_id = o.order_id) = [] :=
          List.filter_eq_nil_iff.mpr (fun a ha => by
            obtain ⟨_, _, _, k, hk, hke⟩ := ih2 a ha
            simp only [hke, s1, decide_eq_true_eq]
            intro he
            have hki : k + 1 = i + 1 := ordId_inj he
            have hki2 : k = i := by omega
            exact hnotmem (hki2 ▸ hk))
        have hfilter : (its0 ++ itsR).filter
            (fun it => it.order_id = o.order_id) = its0 := by
          rw [List.filter_append, hfL, hfR, List.append_nil]
        rw [hfilter]
        exact ⟨s2, s5, s6, s7, s8, s4, s9, s10⟩
      · obtain ⟨c1, c2, c3, c4, c5, c6, c7, c8⟩ := ih3 o hin
        have homap : o.order_id ∈ osR.map (fun o => o.order_id) :=
          List.mem_map_of_mem _ hin
        rw [ih1] at homap
        obtain ⟨k, hk, hke⟩ := List.mem_map.mp homap
        have hfL : its0.filter (fun it => it.order_id = o.order_id) = [] :=
          List.filter_eq_nil_iff.mpr (fun a ha => by
            simp only [(s3 a ha).1, ← hke, decide_eq_true_eq]
            intro he
            have hki : i + 1 = k + 1 := ordId_inj he
            have hki2 : k = i := by omega
            exact hnotmem (hki2 ▸ hk))
        have hfilter : (its0 ++ itsR).filter
            (fun it => it.order_id = o.order_id) =
            itsR.filter (fun it => it.order_id = o.order_id) := by
          rw [List.filter_append, hfL, List.nil_append]
        rw [hfilter]
        exact ⟨c1, c2, c3, c4, c5, c6, c7, c8⟩


lemma generate_customers_inst (g : GState) (i j : Instance) (n : Int) :
    (generate_customers g i n).1 = (generate_customers g j n).1 ∧
    (generate_customers g i n).2.1 = (generate_customers g j n).2.1 :=
  customersLoop_inst_irrel (pyRange n) g i j

lemma generate_products_inst (g : GState) (i j : Instance) (n : Int) :
    (generate_products g i n).1 = (generate_products g j n).1 ∧
    (generate_products g i n).2.1 = (generate_products g j n).2.1 :=
  productsLoop_inst_irrel (pyRange n) g i j

lemma pyRange_ne_nil (n : Int) (h : 0 < n) : pyRange n ≠ [] := by
  simp only [pyRange, ne_eq, List.range_eq_nil]
  omega

lemma generate_customers_cache_ne (g : GState) (inst : Instance) (n : Int)
    (h : 0 < n) :
    (generate_customers g inst n).2.2.customerCache ≠ [] :=
  customersLoop_cache_ne_nil (pyRange n) g inst (Or.inl (pyRange_ne_nil n h))

lemma generate_products_cache_ne (g : GState) (inst : Instance) (n : Int)
    (h : 0 < n) :
    (generate_products g inst n).2.2.productCache ≠ [] :=
  productsLoop_cache_ne_nil (pyRange n) g inst (Or.inl (pyRange_ne_nil n h))

lemma generate_products_customer_cache (g : GState) (inst : Instance)
    (n : Int) :
    (generate_products g inst n).2.2.customerCache = inst.customerCache :=
  productsLoop_customer_cache (pyRange n) g inst

lemma dictKeys_ne_nil (d : List (String × α)) (h : d ≠ []) :
    dictKeys d ≠ [] := by
  simp only [dictKeys, ne_eq, List.map_eq_nil_iff]
  exact h

lemma generate_orders_error_iff (g : GState) (inst : Instance) (count : Int)
    (co po : Option (List String)) :
    generate_orders g inst count co po = Except.error missingIdsMsg ↔
      (co.getD (dictKeys inst.customerCache) = [] ∨
        po.getD (dictKeys inst.productCache) = []) := by
  simp only [generate_orders]
  split_ifs with h
  · exact iff_of_true rfl h
  · exact iff_of_false (by simp) h

lemma generate_orders_ok (g : GState) (inst : Instance) (count : Int)
    (co po : Option (List String))
    (hc : co.getD (dictKeys inst.customerCache) ≠ [])
    (hp : po.getD (dictKeys inst.productCache) ≠ []) :
    generate_orders g inst count co po =
      Except.ok (ordersLoop g inst (co.getD (dictKeys inst.customerCache))
        (po.getD (dictKeys inst.productCache)) (pyRange count)) := by
  simp only [generate_orders]
  rw [if_neg]
  intro h
  rcases h with h | h
  · exact hc h
  · exact hp h

lemma generate_all_isOk (g : GState) (inst : Instance)
    (cfg : GeneratorConfig) (hc : 0 < cfg.num_customers)
    (hp : 0 < cfg.num_products) :
    (generate_all g inst cfg).isOk = true := by
  simp only [generate_all]
  have hkeysC : dictKeys ((generate_products
      (generate_customers (seedState cfg.seed) inst cfg.num_customers).2.1
      (generate_customers (seedState cfg.seed) inst cfg.num_customers).2.2
      cfg.num_products).2.2.customerCache) ≠ [] := by
    rw [generate_products_customer_cache]
    exact dictKeys_ne_nil _ (generate_customers_cache_ne _ _ _ hc)
  have hkeysP : dictKeys ((generate_products
      (generate_customers (seedState cfg.seed) inst cfg.num_customers).2.1
      (generate_customers (seedState cfg.seed) inst cfg.num_customers).2.2
      cfg.num_products).2.2.productCache) ≠ [] :=
    dictKeys_ne_nil _ (generate_products_cache_ne _ _ _ hp)
  rw [generate_orders_ok _ _ _ _ _ (by simpa using hkeysC)
    (by simpa using hkeysP)]
  rfl

lemma pyRange_nodup (n : Int) : (pyRange n).Nodup := List.nodup_range _

lemma generate_orders_ok_inv (g : GState) (inst : Instance) (count : Int)
    (co po : Option (List String)) (os : List Order) (its : List OrderItem)
    (gf : GState)
    (h : generate_orders g inst count co po = Except.ok (os, its, gf)) :
    co.getD (dictKeys inst.customerCache) ≠ [] ∧
    po.getD (dictKeys inst.productCache) ≠ [] ∧
    ordersLoop g inst (co.getD (dictKeys inst.customerCache))
      (po.getD (dictKeys inst.productCache)) (pyRange count) =
      (os, its, gf) := by
  simp only [generate_orders] at h
  by_cases hcond : (co.getD (dictKeys inst.customerCache) = [] ∨
      po.getD (dictKeys inst.productCache) = [])
  · rw [if_pos hcond] at h
    exact Except.noConfusion h
  · rw [if_neg hcond] at h
    push_neg at hcond
    exact ⟨hcond.1, hcond.2, by injection h⟩

lemma runCPS_inst_irrel (g : GState) (i j : Instance)
    (cfg : GeneratorConfig) :
    runCPS (g, i) cfg = runCPS (g, j) cfg := by
  simp only [runCPS]
  obtain ⟨hC1, hC2⟩ := generate_customers_inst g i j cfg.num_customers
  rw [hC1, hC2]
  obtain ⟨hP1, hP2⟩ := generate_products_inst
    ((generate_customers g j cfg.num_customers).2.1)
    ((generate_customers g i cfg.num_customers).2.2)
    ((generate_customers g j cfg.num_customers).2.2) cfg.num_products
  rw [hP1, hP2]

lemma allCPS_of_ok (gB : GState) (iB : Instance) (cfg : GeneratorConfig)
    (h : (generate_all gB iB cfg).isOk = true) :
    (allC (generate_all gB iB cfg), allP (generate_all gB iB cfg),
      allS (generate_all gB iB cfg)) = runCPS (seedState cfg.seed, iB) cfg := by
  simp only [generate_all] at h ⊢
  generalize hgen : generate_orders (generate_stores (generate_products
      (generate_customers (seedState cfg.seed) iB cfg.num_customers).2.1
      (generate_customers (seedState cfg.seed) iB cfg.num_customers).2.2
      cfg.num_products).2.1 cfg.num_stores).2
    (generate_products
      (generate_customers (seedState cfg.seed) iB cfg.num_customers).2.1
      (generate_customers (seedState cfg.seed) iB cfg.num_customers).2.2
      cfg.num_products).2.2 cfg.num_orders none none = r at h ⊢
  cases r with
  | error e =>
    dsimp only at h
    simp [Except.isOk, Except.toBool] at h
  | ok val =>
    obtain ⟨os, its, g4⟩ := val
    dsimp only
    simp only [allC, allP, allS, runCPS]

lemma generate_all_avg_irrel (g : GState) (i : Instance)
    (a b c d e f a2 : Int) :
    generate_all g i ⟨a, b, c, d, e, f⟩ = generate_all g i ⟨a, b, c, d, a2, f⟩ :=
  rfl

/-- C2: Referential integrity — for every successful call of
`generate_orders`, every returned item's `order_id` equals the `order_id`
of some order returned by the same call, every item's `product_id` lies in
the effective product-ID pool (the supplied list if given, else the
instance's product-cache keys), and every order's `customer_id` lies in
the effective customer-ID pool. -/
theorem claim_C2 (g : GState) (inst : Instance) (count : Int)
    (co po : Option (List String)) (os : List Order) (its : List OrderItem)
    (gf : GState)
    (h : generate_orders g inst count co po = Except.ok (os, its, gf)) :
    (∀ it ∈ its, ∃ o ∈ os, it.order_id = o.order_id) ∧
    (∀ it ∈ its, it.product_id ∈ po.getD (dictKeys inst.productCache)) ∧
    (∀ o ∈ os, o.customer_id ∈ co.getD (dictKeys inst.customerCache)) := by
  obtain ⟨hc, hp, heq⟩ := generate_orders_ok_inv g inst count co po os its gf h
  obtain ⟨l1, l2, l3⟩ := ordersLoop_spec inst _ _ hc hp (pyRange count)
    (pyRange_nodup count) g
  rw [heq] at l2 l3
  dsimp only at l2 l3
  exact ⟨fun it hit => (l2 it hit).1, fun it hit => (l2 it hit).2.1,
    fun o ho => (l3 o ho).1⟩

/-- Witness for C2 at a small concrete call. -/
theorem claim_C2_witness :
    wOrdersCall = Except.ok (okOrders wOrdersCall, okItems wOrdersCall,
      okG wOrdersCall) ∧
    ((∀ it ∈ okItems wOrdersCall, ∃ o ∈ okOrders wOrdersCall,
      it.order_id = o.order_id) ∧
    (∀ it ∈ okItems wOrdersCall,
      it.product_id ∈ (some ["p1"]).getD (dictKeys emptyInst.productCache)) ∧
    (∀ o ∈ okOrders wOrdersCall,
      o.customer_id ∈ (some ["c1"]).getD (dictKeys emptyInst.customerCache))) :=
  ⟨rfl, claim_C2 (seedState 7) emptyInst 1 (some ["c1"]) (some ["p1"])
    (okOrders wOrdersCall) (okItems wOrdersCall) (okG wOrdersCall) rfl⟩

/-- C3: Monetary consistency — for every successful call of
`generate_orders`, every line total is an exact two-decimal value, every
order's `discount_amount` is an exact two-decimal value, every order's
`subtotal` equals the exact sum of the line totals of its own items, and
`total_amount = subtotal - discount_amount + shipping_cost` holds exactly
in the embedded decimal arithmetic. -/
theorem claim_C3 (g : GState) (inst : Instance) (count : Int)
    (co po : Option (List String)) (os : List Order) (its : List OrderItem)
    (gf : GState)
    (h : generate_orders g inst count co po = Except.ok (os, its, gf)) :
    (∀ it ∈ its, is2dp it.line_total) ∧
    (∀ o ∈ os,
      o.subtotal = (((its.filter (fun it => it.order_id = o.order_id)).map
        (fun it => it.line_total)).sum) ∧
      is2dp o.discount_amount ∧
      o.total_amount = o.subtotal - o.discount_amount + o.shipping_cost) := by
  obtain ⟨hc, hp, heq⟩ := generate_orders_ok_inv g inst count co po os its gf h
  obtain ⟨l1, l2, l3⟩ := ordersLoop_spec inst _ _ hc hp (pyRange count)
    (pyRange_nodup count) g
  rw [heq] at l2 l3
  dsimp only at l2 l3
  refine ⟨fun it hit => (l2 it hit).2.2.1, fun o ho => ?_⟩
  obtain ⟨_, _, h2dp, _, htot, hsub, _, _⟩ := l3 o ho
  exact ⟨hsub, h2dp, htot⟩

/-- Witness for C3 at a small concrete call. -/
theorem claim_C3_witness :
    wOrdersCall = Except.ok (okOrders wOrdersCall, okItems wOrdersCall,
      okG wOrdersCall) ∧
    ((∀ it ∈ okItems wOrdersCall, is2dp it.line_total) ∧
    (∀ o ∈ okOrders wOrdersCall,
      o.subtotal = ((((okItems wOrdersCall).filter
        (fun it => it.order_id = o.order_id)).map
          (fun it => it.line_total)).sum) ∧
      is2dp o.discount_amount ∧
      o.total_amount = o.subtotal - o.discount_amount + o.shipping_cost)) :=
  ⟨rfl, claim_C3 (seedState 7) emptyInst 1 (some ["c1"]) (some ["p1"])
    (okOrders wOrdersCall) (okItems wOrdersCall) (okG wOrdersCall) rfl⟩

/-- C5: Missing-dependency rejection — `generate_orders` fails with the
missing-IDs error exactly when the effective customer pool or the
effective product pool is empty (the supplied list when given, else the
instance's cache keys), independently of the requested count; in
particular `generate_orders(0, [], [])` raises rather than returning
empty sequences. -/
theorem claim_C5 (g : GState) (inst : Instance) (count : Int)
    (co po : Option (List String)) :
    generate_orders g inst count co po = Except.error missingIdsMsg ↔
      (co.getD (dictKeys inst.customerCache) = [] ∨
        po.getD (dictKeys inst.productCache) = []) :=
  generate_orders_error_iff g inst count co po

/-- Witness for C5: the `count = 0`, empty-pools edge raises. -/
theorem claim_C5_witness :
    generate_orders (seedState 0) emptyInst 0 (some []) (some []) =
      Except.error missingIdsMsg :=
  (claim_C5 (seedState 0) emptyInst 0 (some []) (some [])).mpr
    (Or.inl rfl)

/-- C7 counterexample: the order-level discount list of the code is the
four-element `[0, 0, 0.05, 0.10]`, not the claimed five-element multiset
with three zeros — so the zero-discount probability is 1/2, not 3/5. -/
theorem claim_C7_counterexample :
    discountFactors.length = 4 ∧ discountFactors.count 0 = 2 ∧
    (discountFactors : Multiset ℚ) ≠
      ({0, 0, 0, 1 / 20, 1 / 10} : Multiset ℚ) := by
  refine ⟨rfl, ?_, ?_⟩
  · norm_num [discountFactors, List.count_cons]
  · intro hml
    have hcnt := congrArg (Multiset.count 0) hml
    simp only [Multiset.coe_count, discountFactors] at hcnt
    norm_num [List.count_cons, Multiset.count_cons, Multiset.count_singleton]
      at hcnt

/-- C7 amended: for every order of a successful `generate_orders` call,
`discount_amount` equals the two-decimal quantization of `subtotal * f`
for some factor `f` drawn from the four-element list `[0, 0, 0.05, 0.10]`
(uniform draw: zero with probability 1/2, five and ten percent with
probability 1/4 each). -/
theorem claim_C7_amended (g : GState) (inst : Instance) (count : Int)
    (co po : Option (List String)) (os : List Order) (its : List OrderItem)
    (gf : GState)
    (h : generate_orders g inst count co po = Except.ok (os, its, gf)) :
    discountFactors = [0, 0, 1 / 20, 1 / 10] ∧
    ∀ o ∈ os, ∃ f ∈ discountFactors,
      o.discount_amount = qround2 (o.subtotal * f) := by
  obtain ⟨hc, hp, heq⟩ := generate_orders_ok_inv g inst count co po os its gf h
  obtain ⟨l1, l2, l3⟩ := ordersLoop_spec inst _ _ hc hp (pyRange count)
    (pyRange_nodup count) g
  rw [heq] at l3
  dsimp only at l3
  exact ⟨rfl, fun o ho => (l3 o ho).2.1⟩

/-- Witness for the amended C7 at a small concrete call. -/
theorem claim_C7_witness :
    wOrdersCall = Except.ok (okOrders wOrdersCall, okItems wOrdersCall,
      okG wOrdersCall) ∧
    (discountFactors = [0, 0, 1 / 20, 1 / 10] ∧
    ∀ o ∈ okOrders wOrdersCall, ∃ f ∈ discountFactors,
      o.discount_amount = qround2 (o.subtotal * f)) :=
  ⟨rfl, claim_C7_amended (seedState 7) emptyInst 1 (some ["c1"])
    (some ["p1"]) (okOrders wOrdersCall) (okItems wOrdersCall)
    (okG wOrdersCall) rfl⟩

/-- C9: Cost-price ordering — every generated product's `unit_cost` is the
two-decimal quantization of `unit_price * (1 - margin)` for its category's
margin, all category margins lie between 0.20 and 0.55, and
`unit_cost ≤ unit_price`. -/
theorem claim_C9 (g : GState) (inst : Instance) (count : Int) :
    ∀ p ∈ (generate_products g inst count).1,
      (∃ c ∈ categoriesL,
        p.unit_cost = qround2 (p.unit_price * (1 - c.margin)) ∧
        (1 : ℚ) / 5 ≤ c.margin ∧ c.margin ≤ (11 : ℚ) / 20) ∧
      p.unit_cost ≤ p.unit_price := by
  intro p hp
  obtain ⟨c, hcm, heq, hle⟩ := productsLoop_cost (pyRange count) g inst p hp
  obtain ⟨_, _, hm1, hm2⟩ := categoriesL_facts c hcm
  exact ⟨⟨c, hcm, heq, hm1, hm2⟩, hle⟩

/-- Witness for C9: the first product of a small concrete batch. -/
theorem claim_C9_witness :
    pW ∈ (generate_products (seedState 1) emptyInst 1).1 ∧
    ((∃ c ∈ categoriesL,
      pW.unit_cost = qround2 (pW.unit_price * (1 - c.margin)) ∧
      (1 : ℚ) / 5 ≤ c.margin ∧ c.margin ≤ (11 : ℚ) / 20) ∧
    pW.unit_cost ≤ pW.unit_price) :=
  have hlen : 0 < (generate_products (seedState 1) emptyInst 1).1.length := by
    have hm := congrArg List.length
      (productsLoop_ids (pyRange 1) (seedState 1) emptyInst)
    simp only [List.length_map] at hm
    simp only [generate_products]
    rw [hm]
    simp [pyRange]
  have hmem : pW ∈ (generate_products (seedState 1) emptyInst 1).1 := by
    simp only [pW]
    rw [List.getD_eq_getElem _ _ hlen]
    exact List.getElem_mem hlen
  ⟨hmem, claim_C9 (seedState 1) emptyInst 1 pW hmem⟩

/-- C1: Determinism — for any seed carried by a config, the
customers/products/stores sequences produced by `generate_all` (which
reseeds the global state from the config seed) on any instance and any
prior global state coincide with the sequences produced by a fresh
generator constructed with that seed and invoked with
`generate_customers`, `generate_products`, `generate_stores` in the same
call order; hence any two freshly seeded runs agree field by field. -/
theorem claim_C1 (gA gB : GState) (iB : Instance) (cfg : GeneratorConfig)
    (h : (generate_all gB iB cfg).isOk = true) :
    runCPS (mkGenerator gA cfg.seed) cfg =
      (allC (generate_all gB iB cfg), allP (generate_all gB iB cfg),
        allS (generate_all gB iB cfg)) := by
  rw [allCPS_of_ok gB iB cfg h]
  exact runCPS_inst_irrel (seedState cfg.seed) emptyInst iB cfg

/-- Witness for C1 at a small concrete configuration. -/
theorem claim_C1_witness :
    (generate_all ⟨5, 6⟩ emptyInst cfgW).isOk = true ∧
    runCPS (mkGenerator ⟨9, 9⟩ cfgW.seed) cfgW =
      (allC (generate_all ⟨5, 6⟩ emptyInst cfgW),
        allP (generate_all ⟨5, 6⟩ emptyInst cfgW),
        allS (generate_all ⟨5, 6⟩ emptyInst cfgW)) :=
  have hOk : (generate_all ⟨5, 6⟩ emptyInst cfgW).isOk = true :=
    generate_all_isOk ⟨5, 6⟩ emptyInst cfgW (by decide) (by decide)
  ⟨hOk, claim_C1 ⟨9, 9⟩ ⟨5, 6⟩ emptyInst cfgW hOk⟩

/-- C4 counterexample: `generate_products(-1)` does not raise — there is no
count validation in the code, `range(-1)` is empty, and the call returns
an empty batch with the state unchanged. -/
theorem claim_C4_counterexample :
    generate_products (seedState 42) emptyInst (-1) =
      ([], seedState 42, emptyInst) := rfl

/-- C4 amended: a negative count is treated like zero — each generator
returns an empty sequence without error (and a successful
`generate_orders` call returns empty sequences); no record is produced,
but no `InvalidArgument` error exists in the code. -/
theorem claim_C4_amended (g : GState) (inst : Instance) (count : Int)
    (hneg : count < 0) :
    (generate_customers g inst count).1 = [] ∧
    (generate_products g inst count).1 = [] ∧
    (generate_stores g count).1 = [] ∧
    (∀ co po os its gf,
      generate_orders g inst count co po = Except.ok (os, its, gf) →
      os = [] ∧ its = []) := by
  have hr : pyRange count = [] := by
    simp only [pyRange, List.range_eq_nil]
    omega
  refine ⟨?_, ?_, ?_, ?_⟩
  · simp only [generate_customers, hr, customersLoop]
  · simp only [generate_products, hr, productsLoop]
  · simp only [generate_stores, hr, storesLoop]
  · intro co po os its gf h
    obtain ⟨_, _, heq⟩ := generate_orders_ok_inv g inst count co po os its gf h
    rw [hr] at heq
    simp only [ordersLoop] at heq
    exact ⟨(Prod.mk.injEq _ _ _ _).mp heq |>.1.symm,
      ((Prod.mk.injEq _ _ _ _).mp
        ((Prod.mk.injEq _ _ _ _).mp heq).2).1.symm⟩

/-- Witness for the amended C4 at count `-1`. -/
theorem claim_C4_witness :
    ((-1 : Int) < 0) ∧
    ((generate_customers (seedState 3) emptyInst (-1)).1 = [] ∧
    (generate_products (seedState 3) emptyInst (-1)).1 = [] ∧
    (generate_stores (seedState 3) (-1)).1 = [] ∧
    (∀ co po os its gf,
      generate_orders (seedState 3) emptyInst (-1) co po =
        Except.ok (os, its, gf) →
      os = [] ∧ its = [])) :=
  ⟨by decide, claim_C4_amended (seedState 3) emptyInst (-1) (by decide)⟩

/-- C6 counterexample: two configs differing only in
`avg_items_per_order` (3 versus 1000) produce identical `generate_all`
results — the item-count distribution does not depend on the configured
average, which the code never reads (it hardcodes `gauss(3, 1.5)`). -/
theorem claim_C6_counterexample :
    generate_all (seedState 0) emptyInst ⟨2, 2, 1, 3, 3, 7⟩ =
      generate_all (seedState 0) emptyInst ⟨2, 2, 1, 3, 1000, 7⟩ ∧
    (⟨2, 2, 1, 3, 3, 7⟩ : GeneratorConfig).avg_items_per_order ≠
      (⟨2, 2, 1, 3, 1000, 7⟩ : GeneratorConfig).avg_items_per_order :=
  ⟨generate_all_avg_irrel (seedState 0) emptyInst 2 2 1 3 3 7 1000,
    by decide⟩

/-- C6 amended: the per-order item count is
`min(max(1, int(gauss(3, 1.5))), 10)` — the mean and deviation are the
hardcoded 3 and 1.5 with `int()` truncation, `generate_all` ignores
`avg_items_per_order` entirely, and every order of a successful
`generate_orders` call has between 1 and 10 items inclusive. -/
theorem claim_C6_amended :
    (∀ (g : GState) (i : Instance) (a b c d e f a2 : Int),
      generate_all g i ⟨a, b, c, d, e, f⟩ =
        generate_all g i ⟨a, b, c, d, a2, f⟩) ∧
    (∀ (g : GState) (inst : Instance) (count : Int)
      (co po : Option (List String)) (os : List Order)
      (its : List OrderItem) (gf : GState),
      generate_orders g inst count co po = Except.ok (os, its, gf) →
      ∀ o ∈ os,
        1 ≤ (its.filter (fun it => it.order_id = o.order_id)).length ∧
        (its.filter (fun it => it.order_id = o.order_id)).length ≤ 10) := by
  refine ⟨generate_all_avg_irrel, ?_⟩
  intro g inst count co po os its gf h o ho
  obtain ⟨hc, hp, heq⟩ := generate_orders_ok_inv g inst count co po os its gf h
  obtain ⟨l1, l2, l3⟩ := ordersLoop_spec inst _ _ hc hp (pyRange count)
    (pyRange_nodup count) g
  rw [heq] at l3
  dsimp only at l3
  obtain ⟨_, _, _, _, _, _, hlo, hhi⟩ := l3 o ho
  exact ⟨hlo, hhi⟩

/-- Witness for the amended C6 at a small concrete call. -/
theorem claim_C6_witness :
    wOrdersCall = Except.ok (okOrders wOrdersCall, okItems wOrdersCall,
      okG wOrdersCall) ∧
    (∀ o ∈ okOrders wOrdersCall,
      1 ≤ ((okItems wOrdersCall).filter
        (fun it => it.order_id = o.order_id)).length ∧
      ((okItems wOrdersCall).filter
        (fun it => it.order_id = o.order_id)).length ≤ 10) :=
  ⟨rfl, claim_C6_amended.2 (seedState 7) emptyInst 1 (some ["c1"])
    (some ["p1"]) (okOrders wOrdersCall) (okItems wOrdersCall)
    (okG wOrdersCall) rfl⟩

/-- C8 counterexample: constructing a second generator between another
instance's construction and its first call changes that instance's
output — the RNG/Faker state is process-global, so instances do share
mutable state. Here B is constructed with seed 1 (global state ⟨0, 0⟩
beforehand); constructing A with seed 2 reseeds the shared stream, and
B's subsequent `generate_customers(1)` differs from the run without A. -/
theorem claim_C8_counterexample :
    (generate_customers (mkGenerator (mkGenerator ⟨0, 0⟩ 1).1 2).1
        (mkGenerator ⟨0, 0⟩ 1).2 1).1 ≠
      (generate_customers (mkGenerator ⟨0, 0⟩ 1).1
        (mkGenerator ⟨0, 0⟩ 1).2 1).1 := by
  decide

/-- C8 amended: only the customer/product caches are per-instance; the
RNG and Faker streams are process-global.  The constructor overwrites the
global state with a function of the seed alone (discarding whichever
state any other instance left), and the customers/products/stores outputs
are determined by the global state irrespective of the invoking
instance's caches. -/
theorem claim_C8_amended :
    (∀ (p q : GState) (s : Int), mkGenerator p s = mkGenerator q s) ∧
    (∀ (p : GState) (s : Int), (mkGenerator p s).1 = seedState s ∧
      (mkGenerator p s).2 = emptyInst) ∧
    (∀ (g : GState) (i j : Instance) (n : Int),
      (generate_customers g i n).1 = (generate_customers g j n).1) ∧
    (∀ (g : GState) (i j : Instance) (n : Int),
      (generate_products g i n).1 = (generate_products g j n).1) :=
  ⟨fun _ _ _ => rfl, fun _ _ => ⟨rfl, rfl⟩,
    fun g i j n => (generate_customers_inst g i j n).1,
    fun g i j n => (generate_products_inst g i j n).1⟩

/-- C10: identifier numbering restarts on every call — independently of
the prior state, `generate_customers(n)` returns identifiers
`CUST-00000001`, ... in order (eight digits, zero-padded) and
`generate_products(n)` returns `SKU-000001`, ... (six digits); the
identifiers are pairwise distinct within one call, and after the call the
instance cache maps each identifier to the record of that call — so a
repeated call reuses the same identifiers and overwrites the cache
entries. -/
theorem claim_C10 (g : GState) (inst : Instance) (count : Int) :
    ((generate_customers g inst count).1.map (fun c => c.customer_id) =
      (pyRange count).map (fun k => custId (k + 1))) ∧
    ((generate_customers g inst count).1.map (fun c => c.customer_id)).Nodup ∧
    (∀ c ∈ (generate_customers g inst count).1,
      dictFind (generate_customers g inst count).2.2.customerCache
        c.customer_id = some c) ∧
    ((generate_products g inst count).1.map (fun p => p.product_id) =
      (pyRange count).map (fun k => skuId (k + 1))) ∧
    ((generate_products g inst count).1.map (fun p => p.product_id)).Nodup ∧
    (∀ p ∈ (generate_products g inst count).1,
      dictFind (generate_products g inst count).2.2.productCache
        p.product_id = some p) := by
  refine ⟨customersLoop_ids (pyRange count) g inst, ?_, ?_,
    productsLoop_ids (pyRange count) g inst, ?_, ?_⟩
  · simp only [generate_customers]
    rw [customersLoop_ids (pyRange count) g inst]
    exact List.Nodup.map (fun a b hab => by
      have := custId_inj hab; omega) (pyRange_nodup count)
  · exact fun c hc =>
      customersLoop_find (pyRange count) (pyRange_nodup count) g inst c hc
  · simp only [generate_products]
    rw [productsLoop_ids (pyRange count) g inst]
    exact List.Nodup.map (fun a b hab => by
      have := skuId_inj hab; omega) (pyRange_nodup count)
  · exact fun p hp =>
      productsLoop_find (pyRange count) (pyRange_nodup count) g inst p hp

/-- Witness for C10 at a small concrete call. -/
theorem claim_C10_witness :
    ((generate_customers (seedState 4) emptyInst 2).1.map
      (fun c => c.customer_id) =
      (pyRange 2).map (fun k => custId (k + 1))) ∧
    ((generate_customers (seedState 4) emptyInst 2).1.map
      (fun c => c.customer_id)).Nodup ∧
    (∀ c ∈ (generate_customers (seedState 4) emptyInst 2).1,
      dictFind (generate_customers (seedState 4) emptyInst 2).2.2.customerCache
        c.customer_id = some c) ∧
    ((generate_products (seedState 4) emptyInst 2).1.map
      (fun p => p.product_id) =
      (pyRange 2).map (fun k => skuId (k + 1))) ∧
    ((generate_products (seedState 4) emptyInst 2).1.map
      (fun p => p.product_id)).Nodup ∧
    (∀ p ∈ (generate_products (seedState 4) emptyInst 2).1,
      dictFind (generate_products (seedState 4) emptyInst 2).2.2.productCache
        p.product_id = some p) :=
  claim_C10 (seedState 4) emptyInst 2
